import Mathlib

/-!
Verification development for the hit-modules request-scoped authentication
and configuration pipeline (`hit_modules/middleware.py`, `hit_modules/auth.py`,
`hit_modules/client.py`, `hit_modules/database.py`).

The Python code is shallowly embedded: dict-shaped JSON data becomes the
inductive `JVal`, Python truthiness becomes `pyTruthy`, exceptions become
`Except`, and the process-wide caches become explicit state records threaded
through the functions.  Remote HTTP calls are modelled as oracles
(`Nat → Except ProvError JVal`, indexed by a call counter) so that theorems
can quantify over remote behaviour and count how often the remote is hit.
-/

namespace HitModules

/-- Lookup in an association list by key, first match (Python dicts carry
unique keys). -/
def assocGet {α : Type} (l : List (String × α)) (k : String) : Option α :=
  (l.find? (fun kv => kv.1 = k)).map Prod.snd

/-- Assignment `d[k] = v` on an association list, keeping Python dict
semantics: an existing key is updated in place, a new key is appended. -/
def assocSet {α : Type} : List (String × α) → String → α → List (String × α)
  | [], k, v => [(k, v)]
  | kv :: rest, k, v =>
    if kv.1 = k then (k, v) :: rest else kv :: assocSet rest k v

/-- JSON-ish Python values as they flow through the middleware: the payload of
`json.loads`, provisioner responses, module configs.  Numbers keep their raw
lexeme (the pipeline never computes with them). -/
inductive JVal where
  | null
  | bool (b : Bool)
  | str (s : String)
  | num (raw : String)
  | arr (elems : List JVal)
  | obj (fields : List (String × JVal))

mutual

def JVal.decEq : (a b : JVal) → Decidable (a = b)
  | .null, .null => isTrue rfl
  | .bool a, .bool b =>
    if h : a = b then isTrue (by rw [h])
    else isFalse (by intro hh; injection hh with h1; exact h h1)
  | .str a, .str b =>
    if h : a = b then isTrue (by rw [h])
    else isFalse (by intro hh; injection hh with h1; exact h h1)
  | .num a, .num b =>
    if h : a = b then isTrue (by rw [h])
    else isFalse (by intro hh; injection hh with h1; exact h h1)
  | .arr xs, .arr ys =>
    match JVal.decEqList xs ys with
    | isTrue h => isTrue (by rw [h])
    | isFalse h => isFalse (by intro hh; injection hh with h1; exact h h1)
  | .obj xs, .obj ys =>
    match JVal.decEqFields xs ys with
    | isTrue h => isTrue (by rw [h])
    | isFalse h => isFalse (by intro hh; injection hh with h1; exact h h1)
  | .null, .bool _ => isFalse (fun h => JVal.noConfusion h)
  | .null, .str _ => isFalse (fun h => JVal.noConfusion h)
  | .null, .num _ => isFalse (fun h => JVal.noConfusion h)
  | .null, .arr _ => isFalse (fun h => JVal.noConfusion h)
  | .null, .obj _ => isFalse (fun h => JVal.noConfusion h)
  | .bool _, .null => isFalse (fun h => JVal.noConfusion h)
  | .bool _, .str _ => isFalse (fun h => JVal.noConfusion h)
  | .bool _, .num _ => isFalse (fun h => JVal.noConfusion h)
  | .bool _, .arr _ => isFalse (fun h => JVal.noConfusion h)
  | .bool _, .obj _ => isFalse (fun h => JVal.noConfusion h)
  | .str _, .null => isFalse (fun h => JVal.noConfusion h)
  | .str _, .bool _ => isFalse (fun h => JVal.noConfusion h)
  | .str _, .num _ => isFalse (fun h => JVal.noConfusion h)
  | .str _, .arr _ => isFalse (fun h => JVal.noConfusion h)
  | .str _, .obj _ => isFalse (fun h => JVal.noConfusion h)
  | .num _, .null => isFalse (fun h => JVal.noConfusion h)
  | .num _, .bool _ => isFalse (fun h => JVal.noConfusion h)
  | .num _, .str _ => isFalse (fun h => JVal.noConfusion h)
  | .num _, .arr _ => isFalse (fun h => JVal.noConfusion h)
  | .num _, .obj _ => isFalse (fun h => JVal.noConfusion h)
  | .arr _, .null => isFalse (fun h => JVal.noConfusion h)
  | .arr _, .bool _ => isFalse (fun h => JVal.noConfusion h)
  | .arr _, .str _ => isFalse (fun h => JVal.noConfusion h)
  | .arr _, .num _ => isFalse (fun h => JVal.noConfusion h)
  | .arr _, .obj _ => isFalse (fun h => JVal.noConfusion h)
  | .obj _, .null => isFalse (fun h => JVal.noConfusion h)
  | .obj _, .bool _ => isFalse (fun h => JVal.noConfusion h)
  | .obj _, .str _ => isFalse (fun h => JVal.noConfusion h)
  | .obj _, .num _ => isFalse (fun h => JVal.noConfusion h)
  | .obj _, .arr _ => isFalse (fun h => JVal.noConfusion h)

def JVal.decEqList : (xs ys : List JVal) → Decidable (xs = ys)
  | [], [] => isTrue rfl
  | [], _ :: _ => isFalse (fun h => List.noConfusion h)
  | _ :: _, [] => isFalse (fun h => List.noConfusion h)
  | x :: xs, y :: ys =>
    match JVal.decEq x y, JVal.decEqList xs ys with
    | isTrue h1, isTrue h2 => isTrue (by rw [h1, h2])
    | isFalse h1, _ =>
      isFalse (by intro hh; injection hh with hh1 hh2; exact h1 hh1)
    | _, isFalse h2 =>
      isFalse (by intro hh; injection hh with hh1 hh2; exact h2 hh2)

def JVal.decEqFields :
    (xs ys : List (String × JVal)) → Decidable (xs = ys)
  | [], [] => isTrue rfl
  | [], _ :: _ => isFalse (fun h => List.noConfusion h)
  | _ :: _, [] => isFalse (fun h => List.noConfusion h)
  | (k1, v1) :: xs, (k2, v2) :: ys =>
    if hk : k1 = k2 then
      match JVal.decEq v1 v2, JVal.decEqFields xs ys with
      | isTrue hv, isTrue ht => isTrue (by rw [hk, hv, ht])
      | isFalse hv, _ =>
        isFalse (by
          intro hh
          injection hh with hh1 hh2
          injection hh1 with hk1 hv1
          exact hv hv1)
      | _, isFalse ht =>
        isFalse (by intro hh; injection hh with hh1 hh2; exact ht hh2)
    else
      isFalse (by
        intro hh
        injection hh with hh1 hh2
        injection hh1 with hk1 hv1
        exact hk hk1)

end

instance : DecidableEq JVal := JVal.decEq

/-- Python truthiness (`if x:`) for the values above: `None`, `False`, `""`,
`0`, `[]`, `{}` are falsy.  A numeric lexeme is falsy when it denotes zero;
the pipeline only ever truth-tests dicts and strings, so we keep the numeric
case simple: `0` lexemes of the form 0, -0, 0.0 etc. -/
def numIsZero (raw : String) : Bool :=
  raw.data.all (fun c => c = '0' ∨ c = '-' ∨ c = '.' ∨ c = '+' ∨ c = 'e' ∨ c = 'E')

def pyTruthy : JVal → Bool
  | .null => false
  | .bool b => b
  | .str s => s ≠ ""
  | .num raw => ¬ numIsZero raw
  | .arr elems => ¬ elems.isEmpty
  | .obj fields => ¬ fields.isEmpty

/-- Access `d.get(k)` on a dict value: `none` when the key is absent
(callers pick their own default).  Non-dict receivers do not occur on the paths the claims
exercise. -/
def jGet : JVal → String → Option JVal
  | .obj fields, k => assocGet fields k
  | _, _ => none

/-- Access `d.get(k, default)`. -/
def jGetD (v : JVal) (k : String) (dflt : JVal) : JVal :=
  (jGet v k).getD dflt

/-- Assignment `d[k] = v` on a dict payload. -/
def fieldsSet (fields : List (String × JVal)) (k : String) (v : JVal) :
    List (String × JVal) :=
  assocSet fields k v

/-- Whether a value is a Python dict. -/
def JVal.isObj : JVal → Bool
  | .obj _ => true
  | _ => false

/-- Assignment `d[k] = v` on a dict value (dict receivers only on the claimed paths). -/
def jSet (v : JVal) (k : String) (x : JVal) : JVal :=
  match v with
  | .obj fields => .obj (fieldsSet fields k x)
  | other => other

/-- Python `a or b` for optional strings, with `""` falsy. -/
def pyTruthyOptStr : Option String → Bool
  | some s => s ≠ ""
  | none => false

def pyOrOptStr (a b : Option String) : Option String :=
  if pyTruthyOptStr a then a else b

/-- Python `a or b` for optional-string `a` against a string default. -/
def pyOrStr (a : Option String) (b : String) : String :=
  match a with
  | some s => if s ≠ "" then s else b
  | none => b

/-- Python `a or b` on values. -/
def pyOrJ (a b : JVal) : JVal :=
  if pyTruthy a then a else b

/-- Python `str(v)` for the scalar values that reach it on the claimed paths;
container renderings are abridged placeholders. -/
def pyStrConv : JVal → String
  | .str s => s
  | .null => "None"
  | .bool true => "True"
  | .bool false => "False"
  | .num raw => raw
  | .arr _ => "<arr>"
  | .obj _ => "<obj>"

/-- Split `s.split(sep)` for a one-character separator, on the underlying character
list (Python never returns an empty list here: splitting the empty string
gives `[""]`). -/
def splitOnChar (sep : Char) : List Char → List (List Char)
  | [] => [[]]
  | c :: rest =>
    match splitOnChar sep rest with
    | h :: t => if c = sep then [] :: h :: t else (c :: h) :: t
    | [] => if c = sep then [[], []] else [[c]]

/-- Test `s.startswith(p)` on character lists (first argument the string, second
the pattern). -/
def listStartsWith : List Char → List Char → Bool
  | _, [] => true
  | [], _ :: _ => false
  | c :: cs, p :: ps => c = p && listStartsWith cs ps

/-! ### base64url decoding (models `base64.urlsafe_b64decode`)

The source right-pads the payload with `=` to a multiple of four and decodes
with the urlsafe alphabet.  We model the decoder strictly over that alphabet
(a character outside it fails the decode); unused trailing bits are not
validated, matching the permissive stdlib decoder on the alphabet itself. -/

def b64Char (c : Char) : Option Nat :=
  if 65 ≤ c.toNat ∧ c.toNat ≤ 90 then some (c.toNat - 65)
  else if 97 ≤ c.toNat ∧ c.toNat ≤ 122 then some (c.toNat - 97 + 26)
  else if 48 ≤ c.toNat ∧ c.toNat ≤ 57 then some (c.toNat - 48 + 52)
  else if c = '-' then some 62
  else if c = '_' then some 63
  else none

/-- Decode base64 in groups of four characters; `=` padding may only close the
final group (one or two pads). -/
def b64DecodeGroups : List Char → Option (List Nat)
  | [] => some []
  | c1 :: c2 :: c3 :: c4 :: rest =>
    match b64Char c1, b64Char c2 with
    | some a, some b =>
      if c3 = '=' then
        if c4 = '=' ∧ rest = [] then some [a * 4 + b / 16] else none
      else
        match b64Char c3 with
        | some c =>
          if c4 = '=' then
            if rest = [] then some [a * 4 + b / 16, (b % 16) * 16 + c / 4]
            else none
          else
            match b64Char c4 with
            | some d =>
              match b64DecodeGroups rest with
              | some tail =>
                some ([a * 4 + b / 16, (b % 16) * 16 + c / 4, (c % 4) * 64 + d] ++ tail)
              | none => none
            | none => none
        | none => none
    | _, _ => none
  | _ => none

/-- Decoder `base64.urlsafe_b64decode` on an already-padded string: bytes out, or a
decode failure. -/
def urlsafe_b64decode (s : String) : Option (List Nat) :=
  b64DecodeGroups s.data

/-! ### JSON parsing (models `json.loads` on ASCII input)

A fuel-indexed recursive-descent parser for the JSON grammar: objects,
arrays, strings with the standard escapes, numbers (kept as raw lexemes),
`true`/`false`/`null`.  Duplicate object keys keep Python dict semantics
(last value wins, first position kept).  Input bytes must be ASCII; the
tokens in this codebase are. -/

def isJsonWs (c : Char) : Bool :=
  c = ' ' ∨ c = '\t' ∨ c = '\n' ∨ c = '\r'

def skipWs (cs : List Char) : List Char :=
  cs.dropWhile isJsonWs

def hexVal (c : Char) : Option Nat :=
  if 48 ≤ c.toNat ∧ c.toNat ≤ 57 then some (c.toNat - 48)
  else if 97 ≤ c.toNat ∧ c.toNat ≤ 102 then some (c.toNat - 97 + 10)
  else if 65 ≤ c.toNat ∧ c.toNat ≤ 70 then some (c.toNat - 65 + 10)
  else none

/-- Body of a JSON string after the opening quote; returns the decoded string
and the remaining input. -/
def parseStringBody : Nat → List Char → List Char → Option (String × List Char)
  | 0, _, _ => none
  | _ + 1, [], _ => none
  | fuel + 1, c :: rest, acc =>
    if c = '"' then some (⟨acc.reverse⟩, rest)
    else if c = '\\' then
      match rest with
      | [] => none
      | e :: rest2 =>
        if e = '"' ∨ e = '\\' ∨ e = '/' then parseStringBody fuel rest2 (e :: acc)
        else if e = 'b' then parseStringBody fuel rest2 (Char.ofNat 8 :: acc)
        else if e = 'f' then parseStringBody fuel rest2 (Char.ofNat 12 :: acc)
        else if e = 'n' then parseStringBody fuel rest2 ('\n' :: acc)
        else if e = 'r' then parseStringBody fuel rest2 ('\r' :: acc)
        else if e = 't' then parseStringBody fuel rest2 ('\t' :: acc)
        else if e = 'u' then
          match rest2 with
          | h1 :: h2 :: h3 :: h4 :: rest3 =>
            match hexVal h1, hexVal h2, hexVal h3, hexVal h4 with
            | some a, some b, some c', some d =>
              parseStringBody fuel rest3
                (Char.ofNat (((a * 16 + b) * 16 + c') * 16 + d) :: acc)
            | _, _, _, _ => none
          | _ => none
        else none
    else parseStringBody fuel rest (c :: acc)

def isDigitChar (c : Char) : Bool :=
  48 ≤ c.toNat ∧ c.toNat ≤ 57

/-- Lex a JSON number starting at the current position (first char is `-` or a
digit); returns the raw lexeme and the rest.  A malformed tail such as `1.`
or `1e` leaves the offending character in the rest, where the surrounding
grammar rejects it — the same inputs `json.loads` rejects. -/
def parseNumberLexeme (cs : List Char) : Option (String × List Char) :=
  let (neg, cs1) : List Char × List Char := match cs with
    | '-' :: t => (['-'], t)
    | t => ([], t)
  let intPart := cs1.takeWhile isDigitChar
  let rest1 := cs1.dropWhile isDigitChar
  if intPart.isEmpty then none
  else
    let (fracPart, rest2) : List Char × List Char :=
      match rest1 with
      | '.' :: t =>
        let ds := t.takeWhile isDigitChar
        if ds.isEmpty then ([], rest1) else ('.' :: ds, t.dropWhile isDigitChar)
      | _ => ([], rest1)
    let (expPart, rest3) : List Char × List Char :=
      match rest2 with
      | e :: t =>
        if e = 'e' ∨ e = 'E' then
          let (sgn, t2) : List Char × List Char :=
            match t with
            | s :: t2 => if s = '+' ∨ s = '-' then ([s], t2) else ([], s :: t2)
            | [] => ([], t)
          let ds := t2.takeWhile isDigitChar
          if ds.isEmpty then ([], rest2)
          else (e :: (sgn ++ ds), t2.dropWhile isDigitChar)
        else ([], rest2)
      | [] => ([], rest2)
    some (⟨neg ++ intPart ++ fracPart ++ expPart⟩, rest3)

mutual

/-- Parse one JSON value (leading whitespace allowed). -/
def parseVal : Nat → List Char → Option (JVal × List Char)
  | 0, _ => none
  | fuel + 1, cs =>
    match skipWs cs with
    | [] => none
    | '{' :: rest =>
      match skipWs rest with
      | '}' :: rest2 => some (.obj [], rest2)
      | rest2 => parseMembers fuel rest2 []
    | '[' :: rest =>
      match skipWs rest with
      | ']' :: rest2 => some (.arr [], rest2)
      | rest2 => parseElems fuel rest2 []
    | '"' :: rest =>
      match parseStringBody (rest.length + 1) rest [] with
      | some (s, rest2) => some (.str s, rest2)
      | none => none
    | 't' :: 'r' :: 'u' :: 'e' :: rest => some (.bool true, rest)
    | 'f' :: 'a' :: 'l' :: 's' :: 'e' :: rest => some (.bool false, rest)
    | 'n' :: 'u' :: 'l' :: 'l' :: rest => some (.null, rest)
    | c :: rest =>
      if c = '-' ∨ isDigitChar c then
        match parseNumberLexeme (c :: rest) with
        | some (raw, rest2) => some (.num raw, rest2)
        | none => none
      else none

/-- Parse object members (cursor at the start of a member key). -/
def parseMembers : Nat → List Char → List (String × JVal) →
    Option (JVal × List Char)
  | 0, _, _ => none
  | fuel + 1, cs, acc =>
    match cs with
    | '"' :: rest =>
      match parseStringBody (rest.length + 1) rest [] with
      | some (k, rest2) =>
        match skipWs rest2 with
        | ':' :: rest3 =>
          match parseVal fuel rest3 with
          | some (v, rest4) =>
            let acc2 := fieldsSet acc k v
            match skipWs rest4 with
            | ',' :: rest5 => parseMembers fuel (skipWs rest5) acc2
            | '}' :: rest5 => some (.obj acc2, rest5)
            | _ => none
          | none => none
        | _ => none
      | none => none
    | _ => none

/-- Parse array elements (cursor at the start of an element). -/
def parseElems : Nat → List Char → List JVal → Option (JVal × List Char)
  | 0, _, _ => none
  | fuel + 1, cs, acc =>
    match parseVal fuel cs with
    | some (v, rest) =>
      match skipWs rest with
      | ',' :: rest2 => parseElems fuel rest2 (acc ++ [v])
      | ']' :: rest2 => some (.arr (acc ++ [v]), rest2)
      | _ => none
    | none => none

end

/-- Parser `json.loads` on decoded payload bytes: ASCII only, the whole input must be
one JSON value plus whitespace. -/
def json_loads (bytes : List Nat) : Option JVal :=
  if bytes.all (fun b => b < 128) then
    match parseVal (bytes.length + 1) (bytes.map Char.ofNat) with
    | some (v, rest) => if skipWs rest = [] then some v else none
    | none => none
  else none

/-! ### `middleware._decode_token_claims` and `middleware._extract_bearer_token` -/

/-- Function `_decode_token_claims(token)` (middleware.py): split on `.`, require
exactly three segments, right-pad the payload segment with `=` to a multiple
of four, base64url-decode, JSON-parse; any failure yields `none`. -/
def jwtPad (payload_b64 : List Char) : List Char :=
  let padding := 4 - payload_b64.length % 4
  if padding ≠ 4 then payload_b64 ++ List.replicate padding '='
  else payload_b64

def _decode_token_claims (token : String) : Option JVal :=
  match splitOnChar '.' token.data with
  | [_, payload_b64, _] =>
    match urlsafe_b64decode ⟨jwtPad payload_b64⟩ with
    | some bytes => json_loads bytes
    | none => none
  | _ => none

/-- The two request headers the extractor reads.  `some ""` models a header
sent with an empty value; `none` models an absent header. -/
structure Request where
  xhitServiceToken : Option String
  authorization : Option String
deriving DecidableEq

/-- Function `_extract_bearer_token(request)` (middleware.py): prefer a truthy
`X-HIT-Service-Token`, else strip a single `Bearer ` from `Authorization`. -/
def _extract_bearer_token (r : Request) : Option String :=
  if pyTruthyOptStr r.xhitServiceToken then r.xhitServiceToken
  else
    let auth_header := r.authorization.getD ""
    if listStartsWith auth_header.data "Bearer ".data then
      some ⟨auth_header.data.drop 7⟩
    else none

/-! ### Provisioner client errors (`errors.py`, `client.py`)

`ProvisionerAuthError`, `ProvisionerRequestError`, `SecretNotFoundError` and
`ProvisionerConfigError` are all subclasses of `ProvisionerError`; a
`requests.RequestException` (connection/transport failure) is re-raised by
`ProvisionerClient._request` as `ProvisionerRequestError`, an HTTP 401 as
`ProvisionerAuthError`, an HTTP 404 as `SecretNotFoundError`. -/

inductive ProvError where
  | provisionerAuthError
  | provisionerRequestError (msg : String)
  | secretNotFoundError
  | provisionerConfigError (msg : String)
deriving DecidableEq

/-- What an HTTP request to the provisioner can come back as, seen from
`ProvisionerClient._request`. -/
inductive HttpOutcome where
  | requestException (msg : String)
  | response (status_code : Nat) (content : Option (Option JVal))
deriving DecidableEq

/-- Method `ProvisionerClient._request` (client.py): transport failure raises
`ProvisionerRequestError`; on the expected status (200 here) an empty body is
`{}` and malformed JSON raises `ProvisionerRequestError`; status 401 raises
`ProvisionerAuthError`, 404 `SecretNotFoundError`, anything else
`ProvisionerRequestError`.  `content = none` models an empty body,
`some none` a body that is not valid JSON, `some (some v)` a JSON body. -/
def clientRequest (outcome : HttpOutcome) : Except ProvError JVal :=
  match outcome with
  | .requestException msg => .error (.provisionerRequestError msg)
  | .response status_code content =>
    if status_code = 200 then
      match content with
      | none => .ok (.obj [])
      | some none => .error (.provisionerRequestError "Invalid JSON response from provisioner")
      | some (some v) => .ok v
    else if status_code = 401 then .error .provisionerAuthError
    else if status_code = 404 then .error .secretNotFoundError
    else .error (.provisionerRequestError "Unknown error")

/-- An `HTTPException` raised by a FastAPI dependency: status plus `detail`
(the detail is a value because the ACL gate passes the `reason` claim through
verbatim). -/
structure HttpFailure where
  status_code : Nat
  detail : JVal
deriving DecidableEq

/-! ### `auth.require_provisioned_token` -/

/-- Dependency `require_provisioned_token` (auth.py): the non-ACL gate.  `credentials`
is the parsed bearer header (`none` when absent); `verify_project_token` is
the provisioner call, which either raises a `ProvError` or returns the parsed
JSON response. -/
def require_provisioned_token (credentials : Option String)
    (verify_project_token : String → Except ProvError JVal) :
    Except HttpFailure JVal :=
  match credentials with
  | none => .error ⟨401, .str "Missing Authorization header"⟩
  | some token =>
    if token = "" then .error ⟨401, .str "Missing bearer token"⟩
    else
      match verify_project_token token with
      | .error (.provisionerConfigError msg) => .error ⟨503, .str msg⟩
      | .error _ => .error ⟨401, .str "Invalid project token"⟩
      | .ok result =>
        if result = .null then
          .error ⟨503, .str "Provisioner returned invalid response"⟩
        else
          let claims := jGetD result "claims" .null
          if ¬ pyTruthy claims then .error ⟨401, .str "Invalid project token"⟩
          else .ok claims

/-! ### `auth.require_method_acl` -/

/-- Method-name-from-path convention: last non-empty path segment
(`path.rstrip("/").split("/")[-1]`). -/
def derive_method_name (path : String) : String :=
  let stripped := (path.data.reverse.dropWhile (fun c => c = '/')).reverse
  ⟨(splitOnChar '/' stripped).getLastD []⟩

/-- The dependency produced by `require_method_acl(module_name, method_name)`
(auth.py), applied to one request.  `env_module_name` models the
`HIT_MODULE_NAME` module-level default, `request_path` the request URL path
(`none` when no request object is injected), and `verify_token_with_acl`
the provisioner call `(token, module_name, method_name) ↦ result`.
The default denial messages drop the quotes the Python f-strings put around
names; no claim depends on their text. -/
def require_method_acl (module_name method_name env_module_name : Option String)
    (request_path : Option String) (credentials : Option String)
    (verify_token_with_acl : String → String → Option String → Except ProvError JVal) :
    Except HttpFailure JVal :=
  let mod_name_opt := pyOrOptStr module_name env_module_name
  if ¬ pyTruthyOptStr mod_name_opt then
    .error ⟨500, .str "Module name not configured. Set HIT_MODULE_NAME or pass module_name to require_method_acl()."⟩
  else
    let mod_name := mod_name_opt.getD ""
    let meth_name : Option String :=
      if pyTruthyOptStr method_name then method_name
      else match request_path with
        | some path => some (derive_method_name path)
        | none => method_name
    match credentials with
    | none => .error ⟨401, .str "Missing Authorization header"⟩
    | some token =>
      if token = "" then .error ⟨401, .str "Missing bearer token"⟩
      else
        match verify_token_with_acl token mod_name meth_name with
        | .error (.provisionerConfigError msg) => .error ⟨503, .str msg⟩
        | .error _ => .error ⟨401, .str "Invalid token"⟩
        | .ok result =>
          if result = .null then
            .error ⟨503, .str "Provisioner returned invalid response"⟩
          else
            let valid := jGetD result "valid" .null
            if valid = .null then
              .error ⟨503, .str "Provisioner returned invalid response format"⟩
            else if ¬ pyTruthy valid then
              .error ⟨401, .str "Invalid token"⟩
            else if ¬ pyTruthy (jGetD result "module_allowed" (.bool true)) then
              .error ⟨403, jGetD result "reason"
                (.str ("Access to module " ++ mod_name ++ " denied"))⟩
            else if pyTruthyOptStr meth_name ∧
                ¬ pyTruthy (jGetD result "method_allowed" (.bool true)) then
              .error ⟨403, jGetD result "reason"
                (.str ("Access to method " ++ meth_name.getD "" ++ " on module " ++ mod_name ++ " denied"))⟩
            else .ok (jGetD result "claims" (.obj []))

/-! ### `middleware._load_module_config` and the config cache

The process-wide `_config_cache` and the number of remote config fetches are
threaded as an explicit `ConfigState`.  The remote side
(`_get_provisioner_client` + `client.get_module_config`) is an oracle indexed
by the running call count, so a theorem can pin the remote response of the
n-th fetch; a `provisionerConfigError` from the oracle also covers the
missing-`PROVISIONER_URL` failure of client construction (both are raised
inside the same `try` and wrapped the same way). -/

structure ConfigState where
  cache : List (String × JVal)
  remoteCalls : Nat
deriving DecidableEq

def cacheLookup (cache : List (String × JVal)) (k : String) : Option JVal :=
  assocGet cache k

/-- The config cache key
built as module name, project slug and service name joined with colons,
with the word default standing in for a falsy component. -/
def cacheKey (module_name : String) (project_slug service_name : JVal) : String :=
  module_name ++ ":" ++ pyStrConv (pyOrJ project_slug (.str "default"))
    ++ ":" ++ pyStrConv (pyOrJ service_name (.str "default"))

/-- Per-call augmentation of a config about to be returned: the mutations
`result["_request_token"] = token` etc. applied to a fresh copy. -/
def augmentConfig (config : JVal) (token : Option String)
    (project_slug service_name : JVal) : JVal :=
  let r := if pyTruthyOptStr token then jSet config "_request_token" (.str (token.getD "")) else config
  let r := if pyTruthy project_slug then jSet r "_project_slug" project_slug else r
  if pyTruthy service_name then jSet r "_service_name" service_name else r

/-- Function `_load_module_config` (middleware.py).  `project_slug`/`service_name` are
the raw claim values (`.null` for Python `None`); errors are the
`RuntimeError`s the function raises (messages abridged, no claim reads
them). -/
def _load_module_config (module_name : String)
    (project_slug service_name : JVal) (token : Option String)
    (remote : Nat → Except ProvError JVal) (st : ConfigState) :
    Except String JVal × ConfigState :=
  if pyTruthyOptStr token ∧ (¬ pyTruthy project_slug ∨ ¬ pyTruthy service_name) then
    (.error ("Invalid service token for module " ++ module_name ++
      ": service tokens must have both prj and svc claims."), st)
  else
    let cache_key := cacheKey module_name project_slug service_name
    match cacheLookup st.cache cache_key with
    | some cached => (.ok (augmentConfig cached token project_slug service_name), st)
    | none =>
      match remote st.remoteCalls with
      | .error (.provisionerConfigError msg) =>
        (.error ("Provisioner misconfigured for module " ++ module_name ++ ": " ++ msg),
          { st with remoteCalls := st.remoteCalls + 1 })
      | .error _ =>
        (.error ("Failed to load config from provisioner for module " ++ module_name),
          { st with remoteCalls := st.remoteCalls + 1 })
      | .ok fetched =>
        let config := if ¬ pyTruthy fetched then .obj [] else fetched
        let st2 : ConfigState :=
          ⟨fieldsSet st.cache cache_key config, st.remoteCalls + 1⟩
        (.ok (augmentConfig config token project_slug service_name), st2)

/-- Function `clear_config_cache()` (middleware.py): `_config_cache.clear()`. -/
def clear_config_cache (st : ConfigState) : ConfigState :=
  { st with cache := [] }

/-! ### `middleware.get_service_token` and `get_module_config_from_request` -/

/-- Dependency `get_service_token(request)` (middleware.py), first call in a request
(the `request.state` memoisation is identity on a single call).  Errors are
the `RuntimeError`s raised (messages abridged). -/
def get_service_token (r : Request) : Except String String :=
  let token := _extract_bearer_token r
  if ¬ pyTruthyOptStr token then .error "Service token required."
  else
    let token := token.getD ""
    match _decode_token_claims token with
    | none => .error "Invalid service token format - cannot decode claims."
    | some claims =>
      if ¬ pyTruthy claims then .error "Invalid service token format - cannot decode claims."
      else
        let project_slug := jGetD claims "prj" .null
        let service_name := jGetD claims "svc" .null
        if ¬ pyTruthy project_slug ∨ ¬ pyTruthy service_name then
          .error "Invalid service token. Token must have both prj and svc claims."
        else .ok token

/-- What `get_module_config_from_request` can raise to the caller: the
explicit 403 `HTTPException`, or an uncaught `RuntimeError` from the fallback
load. -/
inductive GateError where
  | httpException (status_code : Nat) (detail : String)
  | runtimeError (msg : String)
deriving DecidableEq

/-- The `Authorization`-header fallback half of `get_module_config_from_request`
(middleware.py, after the `except RuntimeError`): decode the raw bearer
token, use it only when it carries truthy `prj` and `svc`, else fail 403.
A `RuntimeError` out of this `_load_module_config` call is not caught. -/
def configFallback (r : Request) (module_name : String)
    (remote : Nat → Except ProvError JVal) (st : ConfigState) :
    Except GateError JVal × ConfigState :=
  let notAuth : Except GateError JVal × ConfigState :=
    (.error (.httpException 403 "Not authenticated. Authentication required to access this resource."), st)
  let auth_header := r.authorization.getD ""
  if listStartsWith auth_header.data "Bearer ".data then
    let user_token : String := ⟨auth_header.data.drop 7⟩
    match _decode_token_claims user_token with
    | some user_claims =>
      if pyTruthy user_claims then
        let project_slug := jGetD user_claims "prj" .null
        let service_name := jGetD user_claims "svc" .null
        if pyTruthy project_slug ∧ pyTruthy service_name then
          match _load_module_config module_name project_slug service_name
              (some user_token) remote st with
          | (.ok config, st2) => (.ok config, st2)
          | (.error msg, st2) => (.error (.runtimeError msg), st2)
        else notAuth
      else notAuth
    | none => notAuth
  else notAuth

/-- Dependency `get_module_config_from_request(request)` (middleware.py): try the
service-token path; any `RuntimeError` out of `get_service_token` or the
primary `_load_module_config` call is caught and control falls through to the
`Authorization` fallback. -/
def get_module_config_from_request (r : Request) (module_name : String)
    (remote : Nat → Except ProvError JVal) (st : ConfigState) :
    Except GateError JVal × ConfigState :=
  match get_service_token r with
  | .ok token =>
    let claims := (_decode_token_claims token).getD .null
    let project_slug := jGetD claims "prj" .null
    let service_name := jGetD claims "svc" .null
    if pyTruthy project_slug ∧ pyTruthy service_name then
      match _load_module_config module_name project_slug service_name
          (some token) remote st with
      | (.ok config, st2) => (.ok config, st2)
      | (.error _, st2) => configFallback r module_name remote st2
    else configFallback r module_name remote st
  | .error _ => configFallback r module_name remote st

/-! ### `database.DatabaseConnectionManager`

The engine registry (`self._engines`) and the count of database-secret
fetches are threaded as `DbState`; engine objects get a fresh `id` from a
counter, so object identity is identity of `id`.  The remote secret endpoint
is again a call-indexed oracle. -/

structure Engine where
  id : Nat
  url : String
deriving DecidableEq

structure DbState where
  engines : List (String × Engine)
  secretCalls : Nat
  nextEngineId : Nat
deriving DecidableEq

def engineLookup (es : List (String × Engine)) (k : String) : Option Engine :=
  assocGet es k

def engineInsert (es : List (String × Engine)) (k : String) (e : Engine) :
    List (String × Engine) :=
  assocSet es k e

/-- Method `get_database_url` (database.py): fetch the secret, always hitting the
remote (no URL caching), and take `secret.get("url") or
secret.get("DATABASE_URL")`.  Errors are the `DatabaseConnectionError`s
raised (messages abridged).  A truthy non-string URL value would crash the
Python engine layer downstream; it is mapped to an error here and is not on
any claimed path. -/
def get_database_url (ns secret_key : String) (role : Option String)
    (get_database_secret : Nat → Except ProvError JVal) (st : DbState) :
    Except String String × DbState :=
  let st2 := { st with secretCalls := st.secretCalls + 1 }
  match get_database_secret st.secretCalls with
  | .error (.provisionerConfigError msg) =>
    (.error ("Provisioner configuration invalid while fetching database secret: " ++ msg), st2)
  | .error _ =>
    (.error ("Provisioner lookup failed for namespace " ++ ns), st2)
  | .ok secret =>
    if ¬ pyTruthy secret then
      (.error ("Provisioner returned empty secret for namespace " ++ ns), st2)
    else
      let db_url := pyOrJ (jGetD secret "url" .null) (jGetD secret "DATABASE_URL" .null)
      if ¬ pyTruthy db_url then
        (.error ("Provisioner secret missing database URL for namespace " ++ ns), st2)
      else
        match db_url with
        | .str s => (.ok s, st2)
        | _ => (.error ("Provisioner secret carries a non-string database URL for namespace " ++ ns), st2)

/-- Replace the first occurrence of `pat` in `s` (Python `s.replace(pat, rep, 1)`). -/
def replaceFirstSub (s pat rep : List Char) : List Char :=
  match s with
  | [] => []
  | c :: cs =>
    if listStartsWith (c :: cs) pat then rep ++ (c :: cs).drop pat.length
    else c :: replaceFirstSub cs pat rep

/-- The psycopg3 URL normalisation in `get_engine` (database.py).  When the
URL starts with `postgresql://` its scheme cannot contain `+`, so the
guard in the source comparing the scheme against a plus sign is identically true and
is dropped here. -/
def normalize_db_url (psycopg_available : Bool) (db_url : String) : String :=
  let du := db_url.data
  let du2 :=
    if psycopg_available ∧ listStartsWith du "postgresql://".data then
      "postgresql+psycopg://".data ++ du.drop 13
    else if psycopg_available ∧ listStartsWith du "postgres://".data then
      "postgresql+psycopg://".data ++ du.drop 11
    else du
  ⟨replaceFirstSub du2 "postgresql+psycopg2://".data "postgresql+psycopg://".data⟩

/-- Method `get_engine` (database.py): memoised per
`engine_key` when truthy, else namespace, secret key and role (or the word
default) joined with colons; on a miss,
resolve the URL, build an engine (fresh object), memoise it. -/
def get_engine (ns secret_key : String) (role engine_key : Option String)
    (psycopg_available : Bool)
    (get_database_secret : Nat → Except ProvError JVal) (st : DbState) :
    Except String Engine × DbState :=
  let key := pyOrStr engine_key (ns ++ ":" ++ secret_key ++ ":" ++ pyOrStr role "default")
  match engineLookup st.engines key with
  | some engine => (.ok engine, st)
  | none =>
    match get_database_url ns secret_key role get_database_secret st with
    | (.error msg, st2) => (.error msg, st2)
    | (.ok db_url, st2) =>
      let engine : Engine := ⟨st2.nextEngineId, normalize_db_url psycopg_available db_url⟩
      (.ok engine,
        { st2 with engines := engineInsert st2.engines key engine,
                   nextEngineId := st2.nextEngineId + 1 })

/-- Method `dispose()` (database.py): best effort, then `self._engines.clear()`. -/
def dispose (st : DbState) : DbState :=
  { st with engines := [] }

/-! ### `database.get_service_database_url` -/

/-- The per-role selection test of `get_service_database_url` (database.py):
the entry is a dict, `service_name in role.services` (a non-list `services`
counts as empty), `role.primary` truthy, and `role.env or "DATABASE_URL"`
equal to the requested `env_key`. -/
def roleMatches (service_name env_key : String) (role_cfg : JVal) : Bool :=
  match role_cfg with
  | .obj _ =>
    let services := match jGetD role_cfg "services" (.arr []) with
      | .arr xs => xs
      | _ => []
    services.any (fun v => v = JVal.str service_name) &&
      pyTruthy (jGetD role_cfg "primary" .null) &&
      (pyOrJ (jGetD role_cfg "env" .null) (.str "DATABASE_URL") = JVal.str env_key)
  | _ => false

/-- The `chosen` record of `get_service_database_url`: the `namespace`,
`database` and role `name` values of the matched entry. -/
structure ChosenDb where
  ns : JVal
  database : JVal
  role : JVal
deriving DecidableEq

/-- The nested first-match loop of `get_service_database_url`: scan database
entries in order (skipping non-dict entries and non-list `roles`), and within
each, scan roles in order; stop at the first role passing `roleMatches`. -/
def chooseDb (service_name env_key : String) : List JVal → Option ChosenDb
  | [] => none
  | db_cfg :: rest =>
    match db_cfg with
    | .obj _ =>
      match jGetD db_cfg "roles" (.arr []) with
      | .arr roles =>
        match roles.find? (roleMatches service_name env_key) with
        | some role_cfg =>
          some ⟨jGetD db_cfg "namespace" .null, jGetD db_cfg "database" .null,
            jGetD role_cfg "name" .null⟩
        | none => chooseDb service_name env_key rest
      | _ => chooseDb service_name env_key rest
    | _ => chooseDb service_name env_key rest

/-- The selection rule as the spec words it, stated independently of the
loop: flatten all (entry, role) pairs in declaration order and take the first
pair whose role passes the three criteria. -/
def firstMatchingRole (service_name env_key : String) (databases : List JVal) :
    Option (JVal × JVal) :=
  (databases.map (fun db_cfg =>
    match db_cfg with
    | .obj _ =>
      match jGetD db_cfg "roles" (.arr []) with
      | .arr roles => roles.map (fun rc => (db_cfg, rc))
      | _ => []
    | _ => [])).flatten.find? (fun p => roleMatches service_name env_key p.2)

/-- Conversion `str(chosen.get("role") or "") or None`. -/
def roleHint (role : JVal) : Option String :=
  let s := pyStrConv (pyOrJ role (.str ""))
  if s = "" then none else some s

/-- Method `get_service_database_url` (database.py). -/
def get_service_database_url (databases : List JVal) (service_name env_key : String)
    (get_database_secret : Nat → Except ProvError JVal) (st : DbState) :
    Except String String × DbState :=
  if service_name = "" then (.error "service_name is required", st)
  else
    match chooseDb service_name env_key databases with
    | none =>
      (.error ("No primary database mapping found for service=" ++ service_name ++
        " env_key=" ++ env_key), st)
    | some chosen =>
      if ¬ pyTruthy chosen.ns ∨ ¬ pyTruthy chosen.database then
        (.error ("No primary database mapping found for service=" ++ service_name ++
          " env_key=" ++ env_key), st)
      else
        get_database_url (pyStrConv chosen.ns) (pyStrConv chosen.database)
          (roleHint chosen.role) get_database_secret st

/-! ## Helper lemmas -/

theorem assocGet_set_same {α : Type} (l : List (String × α)) (k : String) (v : α) :
    assocGet (assocSet l k v) k = some v := by
  induction l with
  | nil => simp [assocSet, assocGet, List.find?]
  | cons kv rest ih =>
    by_cases hk : kv.1 = k
    · simp [assocSet, hk, assocGet, List.find?]
    · simp [assocSet, hk, assocGet, List.find?] at ih ⊢
      exact ih

theorem assocGet_set_ne {α : Type} (l : List (String × α)) (k k2 : String) (v : α)
    (hne : k2 ≠ k) : assocGet (assocSet l k v) k2 = assocGet l k2 := by
  induction l with
  | nil => simp [assocSet, assocGet, List.find?, Ne.symm hne]
  | cons kv rest ih =>
    by_cases hk : kv.1 = k
    · have hk2 : kv.1 ≠ k2 := by rw [hk]; exact Ne.symm hne
      simp [assocSet, hk, assocGet, List.find?, Ne.symm hne, hk2]
    · by_cases hk2 : kv.1 = k2
      · simp [assocSet, hk, assocGet, List.find?, hk2, hne]
      · simpa [assocSet, hk, assocGet, List.find?, hk2] using ih

theorem jGet_jSet_same (v : JVal) (k : String) (x : JVal)
    (hobj : v.isObj = true) : jGet (jSet v k x) k = some x := by
  cases v with
  | obj fields => simpa [jSet, jGet, fieldsSet] using assocGet_set_same fields k x
  | null => simp [JVal.isObj] at hobj
  | bool _ => simp [JVal.isObj] at hobj
  | str _ => simp [JVal.isObj] at hobj
  | num _ => simp [JVal.isObj] at hobj
  | arr _ => simp [JVal.isObj] at hobj

theorem jGet_jSet_ne (v : JVal) (k k2 : String) (x : JVal)
    (hne : k2 ≠ k) : jGet (jSet v k x) k2 = jGet v k2 := by
  cases v with
  | obj fields => simpa [jSet, jGet, fieldsSet] using assocGet_set_ne fields k k2 x hne
  | null => simp [jSet]
  | bool _ => simp [jSet]
  | str _ => simp [jSet]
  | num _ => simp [jSet]
  | arr _ => simp [jSet]

theorem jSet_isObj (v : JVal) (k : String) (x : JVal)
    (hobj : v.isObj = true) : (jSet v k x).isObj = true := by
  cases v <;> simp_all [jSet, JVal.isObj]

theorem jGet_some_truthy (v : JVal) (k : String) (x : JVal)
    (h : jGet v k = some x) : pyTruthy v = true := by
  cases v with
  | obj fields =>
    cases fields with
    | nil => simp [jGet, assocGet, List.find?] at h
    | cons kv rest => simp [pyTruthy]
  | null => simp [jGet] at h
  | bool _ => simp [jGet] at h
  | str _ => simp [jGet] at h
  | num _ => simp [jGet] at h
  | arr _ => simp [jGet] at h

theorem listStartsWith_append (p s : List Char) :
    listStartsWith (p ++ s) p = true := by
  induction p with
  | nil => cases s <;> simp [listStartsWith]
  | cons c rest ih => simp [listStartsWith, ih]

/-! ## Claims -/

/-- C4: `_decode_token_claims` returns `none` (it is a total function — no
exception escapes) whenever the token does not split on `.` into exactly
three segments, or whenever the padded payload segment fails base64url
decoding or JSON parsing; and on a three-segment token whose payload decodes
to `{"prj": "acme", "svc": "billing"}` it returns a mapping carrying both
keys with those exact string values. -/
theorem claimC4_claims_decoder :
    (∀ token : String, (splitOnChar '.' token.data).length ≠ 3 →
      _decode_token_claims token = none) ∧
    (∀ (token : String) (hd p tl : List Char),
      splitOnChar '.' token.data = [hd, p, tl] →
      (urlsafe_b64decode ⟨jwtPad p⟩).bind json_loads = none →
      _decode_token_claims token = none) ∧
    (_decode_token_claims "h.eyJwcmoiOiJhY21lIiwic3ZjIjoiYmlsbGluZyJ9.s" =
      some (.obj [("prj", .str "acme"), ("svc", .str "billing")])) ∧
    (jGet (.obj [("prj", .str "acme"), ("svc", .str "billing")]) "prj" =
      some (.str "acme")) ∧
    (jGet (.obj [("prj", .str "acme"), ("svc", .str "billing")]) "svc" =
      some (.str "billing")) := by
  refine ⟨?_, ?_, by decide, by decide, by decide⟩
  · intro token hlen
    unfold _decode_token_claims
    split
    · next hd p tl heq => rw [heq] at hlen; simp at hlen
    · rfl
  · intro token hd p tl hsplit hbind
    unfold _decode_token_claims
    split
    · next hd2 p2 tl2 heq =>
      rw [hsplit] at heq
      obtain ⟨rfl, rfl, rfl⟩ : hd = hd2 ∧ p = p2 ∧ tl = tl2 := by
        simpa using heq
      cases hu : urlsafe_b64decode ⟨jwtPad p⟩ with
      | none => simp
      | some bytes => simpa [hu] using hbind
    · rfl

/-- C4 witness: the universally quantified parts applied at concrete inputs:
a token with two segments, a token whose payload is not base64url, and a
token whose payload decodes but is not JSON. -/
theorem claimC4_claims_decoder_witness :
    _decode_token_claims "onlyone.dot" = none ∧
    _decode_token_claims "a.!!!!.c" = none ∧
    _decode_token_claims "a.AAAA.c" = none :=
  ⟨claimC4_claims_decoder.1 "onlyone.dot" (by decide),
   claimC4_claims_decoder.2.1 "a.!!!!.c" "a".data "!!!!".data "c".data
     (by decide) (by decide),
   claimC4_claims_decoder.2.1 "a.AAAA.c" "a".data "AAAA".data "c".data
     (by decide) (by decide)⟩

/-- C5 counterexample: a request whose `X-HIT-Service-Token` header is
present but carries the empty value, alongside `Authorization: Bearer
abc123`.  The claim says the extractor returns the `X-HIT-Service-Token`
value whenever that header is present; the code treats the empty (falsy)
value as absent and returns the `Authorization` token instead. -/
theorem claimC5_counterexample :
    _extract_bearer_token ⟨some "", some "Bearer abc123"⟩ = some "abc123" ∧
    some "abc123" ≠ some "" := by
  constructor
  · rfl
  · decide

/-- C5 (amended): the extractor returns the `X-HIT-Service-Token` value when
that header is present with a non-empty value (even if `Authorization` is
also present); when the service-token header is absent or empty and
`Authorization` is `Bearer <t>` it returns `t` (one `Bearer ` prefix
removed); with neither recognized header present it returns `none`. -/
theorem claimC5_extractor :
    (∀ (r : Request) (v : String), r.xhitServiceToken = some v → v ≠ "" →
      _extract_bearer_token r = some v) ∧
    (∀ (r : Request) (t : String), pyTruthyOptStr r.xhitServiceToken = false →
      r.authorization = some ("Bearer " ++ t) →
      _extract_bearer_token r = some t) ∧
    (∀ r : Request, r.xhitServiceToken = none → r.authorization = none →
      _extract_bearer_token r = none) := by
  refine ⟨?_, ?_, ?_⟩
  · intro r v hx hv
    unfold _extract_bearer_token
    rw [hx]
    simp [pyTruthyOptStr, hv]
  · intro r t hx ha
    unfold _extract_bearer_token
    rw [hx, ha]
    have h1 : listStartsWith ("Bearer " ++ t).data "Bearer ".data = true := by
      rw [String.data_append]
      exact listStartsWith_append _ _
    have h2 : ("Bearer " ++ t).data.drop 7 = t.data := by
      rw [String.data_append]
      exact List.drop_left "Bearer ".data t.data
    simp only [Bool.false_eq_true, if_false, Option.getD_some, h1, if_true]
    rw [h2]
  · intro r hx ha
    unfold _extract_bearer_token
    rw [hx, ha]
    decide

/-- C5 witness: the amended extractor statement applied at concrete
requests. -/
theorem claimC5_extractor_witness :
    _extract_bearer_token ⟨some "tok", some "Bearer abc123"⟩ = some "tok" ∧
    _extract_bearer_token ⟨none, some "Bearer abc123"⟩ = some "abc123" ∧
    _extract_bearer_token ⟨none, none⟩ = none :=
  ⟨claimC5_extractor.1 ⟨some "tok", some "Bearer abc123"⟩ "tok" rfl (by decide),
   claimC5_extractor.2.1 ⟨none, some "Bearer abc123"⟩ "abc123" (by decide) (by decide),
   claimC5_extractor.2.2 ⟨none, none⟩ rfl rfl⟩

/-- C1 counterexample: with a bearer token present and the remote verifier
call failing with a connection error (`requests.RequestException`, re-raised
by `ProvisionerClient._request` as `ProvisionerRequestError`),
`require_provisioned_token` fails with HTTP 401 "Invalid project token" —
not with a 503: `ProvisionerRequestError` is a `ProvisionerError` subclass
and is caught by the same handler as the remote-401 `ProvisionerAuthError`;
only `ProvisionerConfigError` gets the 503 branch. -/
theorem claimC1_counterexample :
    require_provisioned_token (some "token-abc")
      (fun _ => clientRequest (.requestException "connection refused")) =
      .error ⟨401, .str "Invalid project token"⟩ ∧ (401 : Nat) ≠ 503 := by
  constructor
  · rfl
  · decide

/-- C1 (amended): a transport failure reaching the remote verifier surfaces
from `require_provisioned_token` as HTTP 401 `InvalidToken` — the same
failure an HTTP 401 response from the remote produces — not as a 503; only a
`ProvisionerConfigError` (local misconfiguration) surfaces as 503. -/
theorem claimC1_transport_is_401 :
    ∀ (token msg : String) (content : Option (Option JVal)), token ≠ "" →
      (require_provisioned_token (some token)
        (fun _ => clientRequest (.requestException msg)) =
        .error ⟨401, .str "Invalid project token"⟩) ∧
      (require_provisioned_token (some token)
        (fun _ => clientRequest (.response 401 content)) =
        .error ⟨401, .str "Invalid project token"⟩) ∧
      (require_provisioned_token (some token)
        (fun _ => .error (.provisionerConfigError msg)) =
        .error ⟨503, .str msg⟩) := by
  intro token msg content htok
  refine ⟨?_, ?_, ?_⟩ <;> simp [require_provisioned_token, clientRequest, htok]

/-- C1 witness: the amended statement applied at a concrete token and
transport error. -/
theorem claimC1_transport_is_401_witness :
    require_provisioned_token (some "tok")
      (fun _ => clientRequest (.requestException "refused")) =
      .error ⟨401, .str "Invalid project token"⟩ :=
  (claimC1_transport_is_401 "tok" "refused" none (by decide)).1

/-- C3: when the ACL verification result has `valid = true`,
`module_allowed = false` and `reason = "not permitted"`, the ACL gate fails
with HTTP 403 whose detail is exactly the string "not permitted" (the reason
carried verbatim), regardless of the value (or absence) of
`method_allowed`. -/
theorem claimC3_module_forbidden :
    ∀ (module_name method_name env_module_name request_path : Option String)
      (token : String) (result : JVal),
      pyTruthyOptStr (pyOrOptStr module_name env_module_name) = true →
      token ≠ "" →
      jGet result "valid" = some (.bool true) →
      jGet result "module_allowed" = some (.bool false) →
      jGet result "reason" = some (.str "not permitted") →
      require_method_acl module_name method_name env_module_name request_path
        (some token) (fun _ _ _ => .ok result) =
        .error ⟨403, .str "not permitted"⟩ := by
  intro module_name method_name env_module_name request_path token result
    hmod htok hvalid hmodallowed hreason
  have hnn : result ≠ .null := by
    intro h
    rw [h] at hvalid
    simp [jGet] at hvalid
  unfold require_method_acl
  simp [hmod, htok, hnn, jGetD, hvalid, hmodallowed, hreason, pyTruthy]

/-- C3 witness: the gate applied to a concrete verification result carrying
`valid = true`, `module_allowed = false`, `method_allowed = true` and
`reason = "not permitted"`. -/
theorem claimC3_module_forbidden_witness :
    require_method_acl (some "ping-pong") (some "increment") none none
      (some "tok")
      (fun _ _ _ => .ok (.obj [("valid", .bool true),
        ("module_allowed", .bool false), ("method_allowed", .bool true),
        ("reason", .str "not permitted")])) =
      .error ⟨403, .str "not permitted"⟩ :=
  claimC3_module_forbidden (some "ping-pong") (some "increment") none none
    "tok" (.obj [("valid", .bool true), ("module_allowed", .bool false),
      ("method_allowed", .bool true), ("reason", .str "not permitted")])
    (by decide) (by decide) (by decide) (by decide) (by decide)

/-- C10: on a `valid = true` ACL result, an absent `module_allowed` passes
the module check, an absent `method_allowed` passes the method check, and an
absent `claims` makes the ACL gate return the empty mapping — while
`require_provisioned_token` rejects a result with absent claims, and one
with empty claims, with HTTP 401. -/
theorem claimC10_acl_defaults :
    (∀ (module_name method_name env_module_name request_path : Option String)
       (token : String) (result : JVal),
      pyTruthyOptStr (pyOrOptStr module_name env_module_name) = true →
      token ≠ "" →
      jGet result "valid" = some (.bool true) →
      jGet result "module_allowed" = none →
      jGet result "method_allowed" = none →
      jGet result "claims" = none →
      require_method_acl module_name method_name env_module_name request_path
        (some token) (fun _ _ _ => .ok result) = .ok (.obj [])) ∧
    (∀ (token : String) (result : JVal), token ≠ "" → result ≠ .null →
      jGet result "claims" = none →
      require_provisioned_token (some token) (fun _ => .ok result) =
        .error ⟨401, .str "Invalid project token"⟩) ∧
    (∀ (token : String) (result : JVal), token ≠ "" →
      jGet result "claims" = some (.obj []) →
      require_provisioned_token (some token) (fun _ => .ok result) =
        .error ⟨401, .str "Invalid project token"⟩) := by
  refine ⟨?_, ?_, ?_⟩
  · intro module_name method_name env_module_name request_path token result
      hmod htok hvalid hmodallowed hmethallowed hclaims
    have hnn : result ≠ .null := by
      intro h
      rw [h] at hvalid
      simp [jGet] at hvalid
    unfold require_method_acl
    simp [hmod, htok, hnn, jGetD, hvalid, hmodallowed, hmethallowed, hclaims,
      pyTruthy]
  · intro token result htok hnn hclaims
    unfold require_provisioned_token
    simp [htok, hnn, jGetD, hclaims, pyTruthy]
  · intro token result htok hclaims
    have hnn : result ≠ .null := by
      intro h
      rw [h] at hclaims
      simp [jGet] at hclaims
    unfold require_provisioned_token
    simp [htok, hnn, jGetD, hclaims, pyTruthy]

/-- C10 witness: both gates applied to concrete results — an ACL result
carrying only `valid = true`, and non-ACL results with absent and with empty
claims. -/
theorem claimC10_acl_defaults_witness :
    require_method_acl (some "ping-pong") none none (some "/hit/increment")
      (some "tok") (fun _ _ _ => .ok (.obj [("valid", .bool true)])) =
      .ok (.obj []) ∧
    require_provisioned_token (some "tok")
      (fun _ => .ok (.obj [("valid", .bool true)])) =
      .error ⟨401, .str "Invalid project token"⟩ ∧
    require_provisioned_token (some "tok")
      (fun _ => .ok (.obj [("claims", .obj [])])) =
      .error ⟨401, .str "Invalid project token"⟩ :=
  ⟨claimC10_acl_defaults.1 (some "ping-pong") none none
      (some "/hit/increment") "tok" (.obj [("valid", .bool true)])
      (by decide) (by decide) (by decide) (by decide) (by decide) (by decide),
   claimC10_acl_defaults.2.1 "tok" (.obj [("valid", .bool true)])
      (by decide) (by decide) (by decide),
   claimC10_acl_defaults.2.2 "tok" (.obj [("claims", .obj [])])
      (by decide) (by decide)⟩

theorem augment_lookups (cfg : JVal) (token : Option String) (p s : JVal)
    (hobj : cfg.isObj = true) (htok : pyTruthyOptStr token = true)
    (hp : pyTruthy p = true) (hs : pyTruthy s = true) :
    jGet (augmentConfig cfg token p s) "_request_token" =
      some (.str (token.getD "")) ∧
    jGet (augmentConfig cfg token p s) "_project_slug" = some p ∧
    jGet (augmentConfig cfg token p s) "_service_name" = some s := by
  unfold augmentConfig
  simp only [htok, hp, hs, if_true]
  have h1 : (jSet cfg "_request_token" (.str (token.getD ""))).isObj = true :=
    jSet_isObj _ _ _ hobj
  have h2 : (jSet (jSet cfg "_request_token" (.str (token.getD "")))
      "_project_slug" p).isObj = true := jSet_isObj _ _ _ h1
  refine ⟨?_, ?_, ?_⟩
  · rw [jGet_jSet_ne _ _ _ _ (by decide), jGet_jSet_ne _ _ _ _ (by decide),
      jGet_jSet_same _ _ _ hobj]
  · rw [jGet_jSet_ne _ _ _ _ (by decide), jGet_jSet_same _ _ _ h1]
  · rw [jGet_jSet_same _ _ _ h2]

/-- C6: with truthy project and service claims, a cache miss fetches the
config remotely (one oracle call) and populates the cache; a second
resolution of the same triple is served from the cache with the remote
untouched (the oracle is arbitrary beyond the pinned first call, so it may
fail on any later call); `clear_config_cache` empties the whole cache; and a
resolution after a clear performs a fresh remote fetch whatever the oracle
answers. -/
theorem claimC6_config_cache :
    ∀ (module_name : String) (project_slug service_name : JVal)
      (token : Option String) (remote : Nat → Except ProvError JVal)
      (st : ConfigState) (cfg : JVal),
      pyTruthy project_slug = true → pyTruthy service_name = true →
      cacheLookup st.cache (cacheKey module_name project_slug service_name) = none →
      remote st.remoteCalls = .ok cfg → pyTruthy cfg = true →
      (_load_module_config module_name project_slug service_name token remote st =
        (.ok (augmentConfig cfg token project_slug service_name),
          ⟨fieldsSet st.cache (cacheKey module_name project_slug service_name) cfg,
            st.remoteCalls + 1⟩)) ∧
      (∀ token2 : Option String,
        _load_module_config module_name project_slug service_name token2 remote
          ⟨fieldsSet st.cache (cacheKey module_name project_slug service_name) cfg,
            st.remoteCalls + 1⟩ =
        (.ok (augmentConfig cfg token2 project_slug service_name),
          ⟨fieldsSet st.cache (cacheKey module_name project_slug service_name) cfg,
            st.remoteCalls + 1⟩)) ∧
      (∀ st2 : ConfigState, (clear_config_cache st2).cache = []) ∧
      (∀ (mn2 : String) (p2 s2 : JVal) (tok2 : Option String) (st3 : ConfigState),
        pyTruthy p2 = true → pyTruthy s2 = true →
        ((_load_module_config mn2 p2 s2 tok2 remote (clear_config_cache st3)).2).remoteCalls =
          st3.remoteCalls + 1) := by
  intro module_name project_slug service_name token remote st cfg
    hp hs hmiss hremote hcfg
  refine ⟨?_, ?_, ?_, ?_⟩
  · unfold _load_module_config
    simp [hp, hs, hmiss, hremote, hcfg]
  · intro token2
    have hhit : cacheLookup
        (fieldsSet st.cache (cacheKey module_name project_slug service_name) cfg)
        (cacheKey module_name project_slug service_name) = some cfg := by
      simpa [cacheLookup, fieldsSet] using
        assocGet_set_same st.cache (cacheKey module_name project_slug service_name) cfg
    unfold _load_module_config
    simp [hp, hs, hhit]
  · intro st2
    simp [clear_config_cache]
  · intro mn2 p2 s2 tok2 st3 hp2 hs2
    have hmiss2 : cacheLookup (clear_config_cache st3).cache
        (cacheKey mn2 p2 s2) = none := by
      simp [clear_config_cache, cacheLookup, assocGet, List.find?]
    unfold _load_module_config
    cases hr : remote (clear_config_cache st3).remoteCalls with
    | error e =>
      cases e <;>
        simp [hp2, hs2, hr, clear_config_cache, cacheLookup, assocGet, List.find?]
    | ok c =>
      by_cases hc : pyTruthy c <;>
        simp [hp2, hs2, hr, hc, clear_config_cache, cacheLookup, assocGet, List.find?]

/-- C6 witness: the cache scenario run at concrete inputs — an oracle that
succeeds on call 0 and fails on every later call. -/
theorem claimC6_config_cache_witness :
    (_load_module_config "ping-pong" (.str "acme") (.str "billing")
      (some "tok-1")
      (fun n => if n = 0 then .ok (.obj [("settings", .obj [])])
        else .error (.provisionerRequestError "down"))
      ⟨[], 0⟩ =
      (.ok (augmentConfig (.obj [("settings", .obj [])]) (some "tok-1")
          (.str "acme") (.str "billing")),
        ⟨fieldsSet [] (cacheKey "ping-pong" (.str "acme") (.str "billing"))
            (.obj [("settings", .obj [])]), 1⟩)) ∧
    (_load_module_config "ping-pong" (.str "acme") (.str "billing")
      (some "tok-2")
      (fun n => if n = 0 then .ok (.obj [("settings", .obj [])])
        else .error (.provisionerRequestError "down"))
      ⟨fieldsSet [] (cacheKey "ping-pong" (.str "acme") (.str "billing"))
          (.obj [("settings", .obj [])]), 1⟩ =
      (.ok (augmentConfig (.obj [("settings", .obj [])]) (some "tok-2")
          (.str "acme") (.str "billing")),
        ⟨fieldsSet [] (cacheKey "ping-pong" (.str "acme") (.str "billing"))
            (.obj [("settings", .obj [])]), 1⟩)) ∧
    (clear_config_cache ⟨fieldsSet [] (cacheKey "ping-pong" (.str "acme")
        (.str "billing")) (.obj [("settings", .obj [])]), 1⟩).cache = [] ∧
    ((_load_module_config "ping-pong" (.str "acme") (.str "billing")
      (some "tok-3")
      (fun n => if n = 0 then .ok (.obj [("settings", .obj [])])
        else .error (.provisionerRequestError "down"))
      (clear_config_cache ⟨fieldsSet []
          (cacheKey "ping-pong" (.str "acme") (.str "billing"))
          (.obj [("settings", .obj [])]), 1⟩)).2).remoteCalls = 2 := by
  have h := claimC6_config_cache "ping-pong" (.str "acme") (.str "billing")
    (some "tok-1")
    (fun n => if n = 0 then .ok (.obj [("settings", .obj [])])
      else .error (.provisionerRequestError "down"))
    ⟨[], 0⟩ (.obj [("settings", .obj [])])
    (by decide) (by decide) (by decide) rfl (by decide)
  exact ⟨h.1, h.2.1 (some "tok-2"), h.2.2.1 _,
    h.2.2.2 "ping-pong" (.str "acme") (.str "billing") (some "tok-3")
      ⟨fieldsSet [] (cacheKey "ping-pong" (.str "acme") (.str "billing"))
          (.obj [("settings", .obj [])]), 1⟩ (by decide) (by decide)⟩

/-- C9: a cache miss stores the raw remote config — which carries no
`_request_token` key — and returns a fresh augmented copy carrying
`_request_token`, `_project_slug`, `_service_name`; every later resolution
of the cached triple returns an augmented copy carrying the own token of that call,
token, leaving the cached entry and the whole state unchanged. -/
theorem claimC9_token_augmentation :
    ∀ (module_name : String) (project_slug service_name : JVal)
      (token : Option String) (remote : Nat → Except ProvError JVal)
      (st : ConfigState) (cfg : JVal),
      pyTruthy project_slug = true → pyTruthy service_name = true →
      pyTruthyOptStr token = true →
      cacheLookup st.cache (cacheKey module_name project_slug service_name) = none →
      remote st.remoteCalls = .ok cfg → cfg.isObj = true → pyTruthy cfg = true →
      jGet cfg "_request_token" = none →
      (cacheLookup
        (_load_module_config module_name project_slug service_name token remote st).2.cache
        (cacheKey module_name project_slug service_name) = some cfg) ∧
      ((_load_module_config module_name project_slug service_name token remote st).1 =
        .ok (augmentConfig cfg token project_slug service_name)) ∧
      (jGet (augmentConfig cfg token project_slug service_name) "_request_token" =
        some (.str (token.getD ""))) ∧
      (jGet (augmentConfig cfg token project_slug service_name) "_project_slug" =
        some project_slug) ∧
      (jGet (augmentConfig cfg token project_slug service_name) "_service_name" =
        some service_name) ∧
      (∀ token2 : Option String, pyTruthyOptStr token2 = true →
        (_load_module_config module_name project_slug service_name token2 remote
          (_load_module_config module_name project_slug service_name token remote st).2 =
          (.ok (augmentConfig cfg token2 project_slug service_name),
            (_load_module_config module_name project_slug service_name token remote st).2)) ∧
        jGet (augmentConfig cfg token2 project_slug service_name) "_request_token" =
          some (.str (token2.getD ""))) := by
  intro module_name project_slug service_name token remote st cfg
    hp hs htok hmiss hremote hobj hcfg hnotok
  have hload : _load_module_config module_name project_slug service_name token remote st =
      (.ok (augmentConfig cfg token project_slug service_name),
        ⟨fieldsSet st.cache (cacheKey module_name project_slug service_name) cfg,
          st.remoteCalls + 1⟩) := by
    unfold _load_module_config
    simp [hp, hs, hmiss, hremote, hcfg]
  have hhit : cacheLookup
      (fieldsSet st.cache (cacheKey module_name project_slug service_name) cfg)
      (cacheKey module_name project_slug service_name) = some cfg := by
    simpa [cacheLookup, fieldsSet] using
      assocGet_set_same st.cache (cacheKey module_name project_slug service_name) cfg
  have haug := augment_lookups cfg token project_slug service_name hobj htok hp hs
  refine ⟨?_, ?_, haug.1, haug.2.1, haug.2.2, ?_⟩
  · rw [hload]
    exact hhit
  · rw [hload]
  · intro token2 htok2
    have haug2 := augment_lookups cfg token2 project_slug service_name hobj htok2 hp hs
    refine ⟨?_, haug2.1⟩
    rw [hload]
    unfold _load_module_config
    simp [hp, hs, hhit]

/-- C9 witness: the augmentation statement run at a concrete miss followed by
a hit with a different token. -/
theorem claimC9_token_augmentation_witness :
    (cacheLookup
      (_load_module_config "ping-pong" (.str "acme") (.str "billing")
        (some "tok-1") (fun _ => .ok (.obj [("settings", .obj [])]))
        ⟨[], 0⟩).2.cache
      (cacheKey "ping-pong" (.str "acme") (.str "billing")) =
      some (.obj [("settings", .obj [])])) ∧
    (jGet (augmentConfig (.obj [("settings", .obj [])]) (some "tok-2")
        (.str "acme") (.str "billing")) "_request_token" =
      some (.str "tok-2")) := by
  have h := claimC9_token_augmentation "ping-pong" (.str "acme")
    (.str "billing") (some "tok-1")
    (fun _ => .ok (.obj [("settings", .obj [])])) ⟨[], 0⟩
    (.obj [("settings", .obj [])])
    (by decide) (by decide) (by decide) (by decide) rfl (by decide)
    (by decide) (by decide)
  exact ⟨h.1, (h.2.2.2.2.2 (some "tok-2") (by decide)).2⟩

/-- C7: `get_engine` memoizes engines per resolved key: a miss fetches the
secret once and stores a fresh engine; an identical second call returns the
identical engine object with no further secret fetch and no state change;
and whenever a key is bound, the call returns exactly the bound engine — so
the manager never returns two different engines for one memoized key. -/
theorem claimC7_engine_memoization :
    ∀ (ns secret_key : String) (role engine_key : Option String)
      (psycopg_available : Bool) (fetch : Nat → Except ProvError JVal)
      (st : DbState) (secret : JVal) (url : String) (key : String),
      key = pyOrStr engine_key
        (ns ++ ":" ++ secret_key ++ ":" ++ pyOrStr role "default") →
      engineLookup st.engines key = none →
      fetch st.secretCalls = .ok secret →
      jGet secret "url" = some (.str url) → url ≠ "" →
      (get_engine ns secret_key role engine_key psycopg_available fetch st =
        (.ok ⟨st.nextEngineId, normalize_db_url psycopg_available url⟩,
          ⟨engineInsert st.engines key
              ⟨st.nextEngineId, normalize_db_url psycopg_available url⟩,
            st.secretCalls + 1, st.nextEngineId + 1⟩)) ∧
      (get_engine ns secret_key role engine_key psycopg_available fetch
          ⟨engineInsert st.engines key
              ⟨st.nextEngineId, normalize_db_url psycopg_available url⟩,
            st.secretCalls + 1, st.nextEngineId + 1⟩ =
        (.ok ⟨st.nextEngineId, normalize_db_url psycopg_available url⟩,
          ⟨engineInsert st.engines key
              ⟨st.nextEngineId, normalize_db_url psycopg_available url⟩,
            st.secretCalls + 1, st.nextEngineId + 1⟩)) ∧
      (∀ (st2 : DbState) (e : Engine),
        engineLookup st2.engines key = some e →
        get_engine ns secret_key role engine_key psycopg_available fetch st2 =
          (.ok e, st2)) := by
  intro ns secret_key role engine_key psycopg_available fetch st secret url key
    hkey hmiss hfetch hurl hne
  have hsecret : pyTruthy secret = true := jGet_some_truthy secret "url" _ hurl
  have hdb : pyOrJ (jGetD secret "url" .null) (jGetD secret "DATABASE_URL" .null) =
      .str url := by
    simp [jGetD, hurl, pyOrJ, pyTruthy, hne]
  have hstr : pyTruthy (JVal.str url) = true := by simp [pyTruthy, hne]
  refine ⟨?_, ?_, ?_⟩
  · unfold get_engine get_database_url
    rw [← hkey]
    simp [hmiss, hfetch, hsecret, hdb, hstr]
  · have hhit : engineLookup
        (engineInsert st.engines key
          ⟨st.nextEngineId, normalize_db_url psycopg_available url⟩) key =
        some ⟨st.nextEngineId, normalize_db_url psycopg_available url⟩ := by
      simpa [engineLookup, engineInsert] using
        assocGet_set_same st.engines key
          ⟨st.nextEngineId, normalize_db_url psycopg_available url⟩
    unfold get_engine
    rw [← hkey]
    simp [hhit]
  · intro st2 e hhit
    unfold get_engine
    rw [← hkey]
    simp [hhit]

/-- C7 witness: two identical `get_engine` calls on a fresh manager with a
remote secret that answers call 0; the second call returns the same engine
and the secret-call counter stays at 1. -/
theorem claimC7_engine_memoization_witness :
    (get_engine "shared-db" "auth-db" none none true
      (fun _ => .ok (.obj [("url", .str "postgresql://u@h/d")]))
      ⟨[], 0, 0⟩ =
      (.ok ⟨0, normalize_db_url true "postgresql://u@h/d"⟩,
        ⟨engineInsert [] "shared-db:auth-db:default"
            ⟨0, normalize_db_url true "postgresql://u@h/d"⟩, 1, 1⟩)) ∧
    (get_engine "shared-db" "auth-db" none none true
      (fun _ => .ok (.obj [("url", .str "postgresql://u@h/d")]))
      ⟨engineInsert [] "shared-db:auth-db:default"
          ⟨0, normalize_db_url true "postgresql://u@h/d"⟩, 1, 1⟩ =
      (.ok ⟨0, normalize_db_url true "postgresql://u@h/d"⟩,
        ⟨engineInsert [] "shared-db:auth-db:default"
            ⟨0, normalize_db_url true "postgresql://u@h/d"⟩, 1, 1⟩)) := by
  have h := claimC7_engine_memoization "shared-db" "auth-db" none none true
    (fun _ => .ok (.obj [("url", .str "postgresql://u@h/d")]))
    ⟨[], 0, 0⟩ (.obj [("url", .str "postgresql://u@h/d")])
    "postgresql://u@h/d" "shared-db:auth-db:default"
    (by decide) (by decide) rfl (by decide) (by decide)
  exact ⟨h.1, h.2.1⟩

theorem chooseDb_eq_firstMatchingRole (svc env : String) :
    ∀ dbs : List JVal, chooseDb svc env dbs =
      (firstMatchingRole svc env dbs).map
        (fun p => ⟨jGetD p.1 "namespace" .null, jGetD p.1 "database" .null,
          jGetD p.2 "name" .null⟩) := by
  intro dbs
  induction dbs with
  | nil => simp [chooseDb, firstMatchingRole]
  | cons db rest ih =>
    cases db with
    | obj fields =>
      cases hroles : jGetD (.obj fields) "roles" (.arr []) with
      | arr roles =>
        have hfun : ((fun p : JVal × JVal => roleMatches svc env p.2) ∘
            (fun rc => (JVal.obj fields, rc))) = roleMatches svc env := by
          funext rc
          rfl
        cases hfind : roles.find? (roleMatches svc env) with
        | some rc =>
          simp [chooseDb, firstMatchingRole, hroles, hfun, hfind,
            List.find?_append, List.find?_map]
        | none =>
          simpa [chooseDb, firstMatchingRole, hroles, hfun, hfind,
            List.find?_append, List.find?_map] using ih
      | null =>
        simpa [chooseDb, firstMatchingRole, hroles, List.find?_append] using ih
      | bool b =>
        simpa [chooseDb, firstMatchingRole, hroles, List.find?_append] using ih
      | str s =>
        simpa [chooseDb, firstMatchingRole, hroles, List.find?_append] using ih
      | num n =>
        simpa [chooseDb, firstMatchingRole, hroles, List.find?_append] using ih
      | obj o =>
        simpa [chooseDb, firstMatchingRole, hroles, List.find?_append] using ih
    | null => simpa [chooseDb, firstMatchingRole, List.find?_append] using ih
    | bool b => simpa [chooseDb, firstMatchingRole, List.find?_append] using ih
    | str s => simpa [chooseDb, firstMatchingRole, List.find?_append] using ih
    | num n => simpa [chooseDb, firstMatchingRole, List.find?_append] using ih
    | arr elems =>
      simpa [chooseDb, firstMatchingRole, List.find?_append] using ih

/-- C8: `get_service_database_url` selects the first role in declaration
order that passes the three criteria (service listed, `primary` truthy,
`env` — defaulted to `DATABASE_URL` — equal to the requested key), stated
against the independent flatten-and-find formulation; with no matching role
it fails with a `DatabaseConnectionError`; and with a match carrying truthy
`namespace` and `database` it resolves the URL through `get_database_url`
with the derived (namespace, secret_key, role) triple of that role. -/
theorem claimC8_service_db_selection :
    (∀ (svc env : String) (dbs : List JVal),
      chooseDb svc env dbs = (firstMatchingRole svc env dbs).map
        (fun p => ⟨jGetD p.1 "namespace" .null, jGetD p.1 "database" .null,
          jGetD p.2 "name" .null⟩)) ∧
    (∀ (dbs : List JVal) (svc env : String)
       (fetch : Nat → Except ProvError JVal) (st : DbState),
      svc ≠ "" → chooseDb svc env dbs = none →
      get_service_database_url dbs svc env fetch st =
        (.error ("No primary database mapping found for service=" ++ svc ++
          " env_key=" ++ env), st)) ∧
    (∀ (dbs : List JVal) (svc env : String)
       (fetch : Nat → Except ProvError JVal) (st : DbState) (c : ChosenDb),
      svc ≠ "" → chooseDb svc env dbs = some c →
      pyTruthy c.ns = true → pyTruthy c.database = true →
      get_service_database_url dbs svc env fetch st =
        get_database_url (pyStrConv c.ns) (pyStrConv c.database)
          (roleHint c.role) fetch st) := by
  refine ⟨chooseDb_eq_firstMatchingRole, ?_, ?_⟩
  · intro dbs svc env fetch st hsvc hnone
    unfold get_service_database_url
    simp [hsvc, hnone]
  · intro dbs svc env fetch st c hsvc hsome hns hdb
    unfold get_service_database_url
    simp [hsvc, hsome, hns, hdb]

/-- C8 witness: a databases list whose first role entry fails the criteria
(`primary: false`) and whose second passes them; the resolver uses the
the (namespace, database, role-name) triple of the second role.  The no-match part is
applied at the empty list. -/
theorem claimC8_service_db_selection_witness :
    (get_service_database_url
      [.obj [("namespace", .str "ns1"), ("database", .str "db1"),
        ("roles", .arr [.obj [("name", .str "reader"),
          ("services", .arr [.str "svc-a"]), ("primary", .bool false),
          ("env", .str "DATABASE_URL")]])],
       .obj [("namespace", .str "ns2"), ("database", .str "db2"),
        ("roles", .arr [.obj [("name", .str "writer"),
          ("services", .arr [.str "svc-a"]), ("primary", .bool true),
          ("env", .str "DATABASE_URL")]])]]
      "svc-a" "DATABASE_URL"
      (fun _ => .ok (.obj [("url", .str "postgresql://u@h/d")])) ⟨[], 0, 0⟩ =
      get_database_url "ns2" "db2" (some "writer")
        (fun _ => .ok (.obj [("url", .str "postgresql://u@h/d")])) ⟨[], 0, 0⟩) ∧
    (get_service_database_url [] "svc-a" "DATABASE_URL"
      (fun _ => .ok (.obj [("url", .str "postgresql://u@h/d")])) ⟨[], 0, 0⟩ =
      (.error ("No primary database mapping found for service=svc-a env_key=DATABASE_URL"),
        ⟨[], 0, 0⟩)) := by
  constructor
  · exact claimC8_service_db_selection.2.2
      [.obj [("namespace", .str "ns1"), ("database", .str "db1"),
        ("roles", .arr [.obj [("name", .str "reader"),
          ("services", .arr [.str "svc-a"]), ("primary", .bool false),
          ("env", .str "DATABASE_URL")]])],
       .obj [("namespace", .str "ns2"), ("database", .str "db2"),
        ("roles", .arr [.obj [("name", .str "writer"),
          ("services", .arr [.str "svc-a"]), ("primary", .bool true),
          ("env", .str "DATABASE_URL")]])]]
      "svc-a" "DATABASE_URL"
      (fun _ => .ok (.obj [("url", .str "postgresql://u@h/d")])) ⟨[], 0, 0⟩
      ⟨.str "ns2", .str "db2", .str "writer"⟩
      (by decide) (by decide) (by decide) (by decide)
  · exact claimC8_service_db_selection.2.1 [] "svc-a" "DATABASE_URL"
      (fun _ => .ok (.obj [("url", .str "postgresql://u@h/d")])) ⟨[], 0, 0⟩
      (by decide) (by decide)

/-- C2 counterexample: a request whose `X-HIT-Service-Token` decodes to
claims `{"prj": "acme"}` (no `svc`) alongside an `Authorization` bearer
token carrying both `prj` and `svc`.  The claim says the resolver fails
outright with an `InvalidServiceToken`-class error and never falls back; the
code catches the `RuntimeError` from the service-token path and serves the
config from the `Authorization` token: the resolution succeeds. -/
theorem claimC2_counterexample :
    (get_module_config_from_request
      ⟨some "h.eyJwcmoiOiJhY21lIn0.s",
       some "Bearer h.eyJwcmoiOiJhY21lIiwic3ZjIjoiYmlsbGluZyJ9.s"⟩
      "ping-pong" (fun _ => .ok (.obj [("settings", .obj [])])) ⟨[], 0⟩).1 =
      .ok (.obj [("settings", .obj []),
        ("_request_token", .str "h.eyJwcmoiOiJhY21lIiwic3ZjIjoiYmlsbGluZyJ9.s"),
        ("_project_slug", .str "acme"),
        ("_service_name", .str "billing")]) := by
  rfl

/-- C2 (amended): when the `X-HIT-Service-Token` header is present but its
token decodes to claims missing `prj` or `svc`, `get_module_config_from_request`
does not fail outright: the `RuntimeError` is caught and the resolver falls
back to the `Authorization` header token, resolving the config with it
whenever that token decodes to claims carrying truthy `prj` and `svc`. -/
theorem claimC2_fallback :
    ∀ (r : Request) (module_name : String)
      (remote : Nat → Except ProvError JVal) (st : ConfigState)
      (t1 : String) (c1 : JVal) (t2 : String) (c2 : JVal),
      r.xhitServiceToken = some t1 → t1 ≠ "" →
      _decode_token_claims t1 = some c1 →
      (pyTruthy (jGetD c1 "prj" .null) = false ∨
        pyTruthy (jGetD c1 "svc" .null) = false) →
      r.authorization = some ("Bearer " ++ t2) →
      _decode_token_claims t2 = some c2 → pyTruthy c2 = true →
      pyTruthy (jGetD c2 "prj" .null) = true →
      pyTruthy (jGetD c2 "svc" .null) = true →
      get_module_config_from_request r module_name remote st =
        (match _load_module_config module_name (jGetD c2 "prj" .null)
            (jGetD c2 "svc" .null) (some t2) remote st with
          | (.ok config, st2) => (.ok config, st2)
          | (.error msg, st2) => (.error (.runtimeError msg), st2)) := by
  intro r module_name remote st t1 c1 t2 c2 hx ht1 hdec1 hmiss ha hdec2 hc2
    hprj2 hsvc2
  have hext : _extract_bearer_token r = some t1 := by
    unfold _extract_bearer_token
    rw [hx]
    simp [pyTruthyOptStr, ht1]
  have hgst : ∃ e, get_service_token r = .error e := by
    by_cases hc1 : pyTruthy c1
    · refine ⟨"Invalid service token. Token must have both prj and svc claims.", ?_⟩
      unfold get_service_token
      rw [hext]
      rcases hmiss with hprj | hsvc
      · simp [pyTruthyOptStr, ht1, hdec1, hc1, hprj]
      · simp [pyTruthyOptStr, ht1, hdec1, hc1, hsvc]
    · refine ⟨"Invalid service token format - cannot decode claims.", ?_⟩
      unfold get_service_token
      rw [hext]
      simp [pyTruthyOptStr, ht1, hdec1, hc1]
  have h1 : listStartsWith ("Bearer " ++ t2).data "Bearer ".data = true := by
    rw [String.data_append]
    exact listStartsWith_append _ _
  have hut : (⟨("Bearer " ++ t2).data.drop 7⟩ : String) = t2 := by
    rw [String.data_append]
    exact congrArg String.mk (List.drop_left "Bearer ".data t2.data)
  have hfb : configFallback r module_name remote st =
      (match _load_module_config module_name (jGetD c2 "prj" .null)
          (jGetD c2 "svc" .null) (some t2) remote st with
        | (.ok config, st2) => (.ok config, st2)
        | (.error msg, st2) => (.error (.runtimeError msg), st2)) := by
    unfold configFallback
    rw [ha]
    simp only [Option.getD_some, h1, if_true, hut, hdec2]
    simp [hc2, hprj2, hsvc2]
  rcases hgst with ⟨e, he⟩
  unfold get_module_config_from_request
  rw [he]
  exact hfb

/-- C2 witness: the fallback statement applied at the concrete request of
the counterexample, evaluating the resulting config and cache state. -/
theorem claimC2_fallback_witness :
    get_module_config_from_request
      ⟨some "h.eyJwcmoiOiJhY21lIn0.s",
       some "Bearer h.eyJwcmoiOiJhY21lIiwic3ZjIjoiYmlsbGluZyJ9.s"⟩
      "ping-pong" (fun _ => .ok (.obj [("settings", .obj [])])) ⟨[], 0⟩ =
      (.ok (.obj [("settings", .obj []),
          ("_request_token", .str "h.eyJwcmoiOiJhY21lIiwic3ZjIjoiYmlsbGluZyJ9.s"),
          ("_project_slug", .str "acme"),
          ("_service_name", .str "billing")]),
        ⟨[(cacheKey "ping-pong" (.str "acme") (.str "billing"),
            .obj [("settings", .obj [])])], 1⟩) :=
  claimC2_fallback
    ⟨some "h.eyJwcmoiOiJhY21lIn0.s",
     some "Bearer h.eyJwcmoiOiJhY21lIiwic3ZjIjoiYmlsbGluZyJ9.s"⟩
    "ping-pong" (fun _ => .ok (.obj [("settings", .obj [])])) ⟨[], 0⟩
    "h.eyJwcmoiOiJhY21lIn0.s" (.obj [("prj", .str "acme")])
    "h.eyJwcmoiOiJhY21lIiwic3ZjIjoiYmlsbGluZyJ9.s"
    (.obj [("prj", .str "acme"), ("svc", .str "billing")])
    rfl (by decide) (by decide) (Or.inr (by decide)) (by decide) (by decide)
    (by decide) (by decide) (by decide)

end HitModules
